import Mathlib

/-!
Verification of the UDP input service (src/services/udp/service.go).

The embedding below translates the service into pure Lean definitions:

* `Statistics` mirrors the seven int64 counters of the Go `Statistics`
  struct (lines 132-140).  The counters are only ever incremented by small
  amounts, so they are embedded as `Nat`; int64 overflow plays no role in
  any claim.
* External collaborators (the line-protocol decoder
  `models.ParsePointsWithPrecision`, the `MetaClient.CreateDatabase` call,
  the `PointsWriter.WritePointsPrivileged` call, and the network socket)
  are out of the repository and are embedded as oracle inputs: each call
  site takes the outcome of the collaborator call as an explicit argument.
* Decoded points (`models.Point`) are external values whose only relevant
  properties here are identity, count and order, so they are embedded as
  abstract tokens (`Nat`).
* The goroutine loops `serve`, `parser` and `writer` are embedded as
  one-iteration step functions or step relations.  A Go `select` with a
  `default` clause (the `serve` loop, lines 195-214) is deterministic:
  the ready case is taken, `default` only when no case is ready.  A Go
  `select` without `default` (the `parser` loop, lines 222-239, and the
  `writer` loop, lines 163-185) chooses arbitrarily among the ready
  cases, so those loops are embedded as step relations in which every
  ready case is an enabled step.
-/

namespace Udp

/-- A decoded data point (`models.Point` is external to the repository);
only identity, count and order of points matter to the claims, so a point
is an abstract token. -/
abbrev Point := Nat

/-- Embedding of the Go struct `Statistics` (service.go lines 132-140):
the seven monotone counters of the service, one field per counter. -/
structure Statistics where
  PointsReceived : Nat
  BytesReceived : Nat
  PointsParseFail : Nat
  ReadFail : Nat
  BatchesTransmitted : Nat
  PointsTransmitted : Nat
  BatchesTransmitFail : Nat
  deriving Repr, DecidableEq

/-- The all-zero counter snapshot: the counters of a freshly constructed
service (`NewService`, line 79, sets `stats` to the zero value). -/
def zeroStats : Statistics :=
  { PointsReceived := 0, BytesReceived := 0, PointsParseFail := 0, ReadFail := 0,
    BatchesTransmitted := 0, PointsTransmitted := 0, BatchesTransmitFail := 0 }

/-- The notifications of the `Diagnostic` interface (service.go lines
36-43).  Error payloads carried by the Go methods are dropped; only which
notification fired, with its database argument where one exists, matters
to the claims. -/
inductive DiagEvent where
  | started (bindAddress : String)
  | svcClosed
  | createInternalStorageFailure (db : String)
  | pointWriterError (db : String)
  | parseError
  | readFromError
  deriving Repr, DecidableEq

/-- The fields of `Config` (config.go is not among the sources) that
service.go reads: `BindAddress`, `Database`, `RetentionPolicy`,
`ReadBuffer`. -/
structure Config where
  BindAddress : String
  Database : String
  RetentionPolicy : String
  ReadBuffer : Int
  deriving Repr, DecidableEq

/-- The body of the `parser` loop for one buffer pulled from `parserChan`
(service.go lines 225-238).  `decoded` is the outcome of the external
decoder `models.ParsePointsWithPrecision`: `none` for a decode error,
`some points` for success.  Returns the updated counters, the list of
points forwarded to `s.batcher.In()` in order, and the diagnostic
notifications emitted (`diag` embeds `s.Diagnostic != nil`). -/
def parserHandle (diag : Bool) (stats : Statistics) (decoded : Option (List Point)) :
    Statistics × List Point × List DiagEvent :=
  match decoded with
  | none =>
      ({ stats with PointsParseFail := stats.PointsParseFail + 1 }, [],
        if diag then [DiagEvent.parseError] else [])
  | some points =>
      ({ stats with PointsReceived := stats.PointsReceived + points.length }, points, [])

/-- Outcome of one `createInternalStorage` call: the readiness flag after
the call, whether an error was returned, and whether
`MetaClient.CreateDatabase` was invoked. -/
structure InitOutcome where
  ready : Bool
  errReturned : Bool
  metaCalled : Bool
  deriving Repr, DecidableEq

/-- Embedding of `createInternalStorage` (service.go lines 304-321):
read the readiness flag; if set, return at once without calling the meta
client; otherwise invoke `MetaClient.CreateDatabase` (its success is the
oracle `metaCreateOk`); on success set the flag, on failure return the
error leaving the flag unset. -/
def createInternalStorage (ready : Bool) (metaCreateOk : Bool) : InitOutcome :=
  if ready then { ready := true, errReturned := false, metaCalled := false }
  else if metaCreateOk then { ready := true, errReturned := false, metaCalled := true }
  else { ready := false, errReturned := true, metaCalled := true }

/-- `createInternalStorage` invoked once per batch over a sequence of
batches, starting from readiness flag `ready` with `calls` meta-client
invocations so far; each list element is the oracle outcome of the
`CreateDatabase` call the batch would make.  Returns the final flag and
the total number of meta-client invocations. -/
def runInitSequence : Bool → Nat → List Bool → Bool × Nat
  | ready, calls, [] => (ready, calls)
  | ready, calls, ok :: rest =>
      let o := createInternalStorage ready ok
      runInitSequence o.ready (calls + (if o.metaCalled then 1 else 0)) rest

/-- Outcome of the `writer` loop body for one batch. -/
structure WriterOutcome where
  stats : Statistics
  ready : Bool
  metaCalled : Bool
  events : List DiagEvent
  deriving Repr, DecidableEq

/-- The body of the `writer` loop for one batch pulled from
`s.batcher.Out()` (service.go lines 164-181): first
`createInternalStorage` (oracle `metaCreateOk`); on its error notify
`CreateInternalStorageFailure` and `continue` — note that no counter is
touched on this path; otherwise submit the batch via
`WritePointsPrivileged` (oracle `writeOk`): on success increment
`BatchesTransmitted` and `PointsTransmitted` by the batch length, on
failure notify `PointWriterError` and increment `BatchesTransmitFail`. -/
def writerHandleBatch (cfg : Config) (diag : Bool) (stats : Statistics) (ready : Bool)
    (metaCreateOk writeOk : Bool) (batch : List Point) : WriterOutcome :=
  let ini := createInternalStorage ready metaCreateOk
  if ini.errReturned then
    { stats := stats, ready := ini.ready, metaCalled := ini.metaCalled,
      events := if diag then [DiagEvent.createInternalStorageFailure cfg.Database] else [] }
  else if writeOk then
    { stats := { stats with
        BatchesTransmitted := stats.BatchesTransmitted + 1,
        PointsTransmitted := stats.PointsTransmitted + batch.length },
      ready := ini.ready, metaCalled := ini.metaCalled, events := [] }
  else
    { stats := { stats with BatchesTransmitFail := stats.BatchesTransmitFail + 1 },
      ready := ini.ready, metaCalled := ini.metaCalled,
      events := if diag then [DiagEvent.pointWriterError cfg.Database] else [] }

/-- Running state of the writer over a sequence of batches: counters,
readiness flag, number of meta-client invocations, number of batches the
loop has pulled and handled, and the diagnostic notifications emitted. -/
structure WriterRunState where
  stats : Statistics
  ready : Bool
  metaCalls : Nat
  handled : Nat
  events : List DiagEvent
  deriving Repr, DecidableEq

/-- The `writer` loop run over a list of batches; each job carries the
two oracle outcomes (`CreateDatabase` success, `WritePointsPrivileged`
success) and the batch.  The loop never exits while batches remain:
line 170 is a `continue`, and the failure branch at lines 176-180 falls
through to the next iteration. -/
def writerRun (cfg : Config) (diag : Bool) :
    WriterRunState → List (Bool × Bool × List Point) → WriterRunState
  | st, [] => st
  | st, (mOk, wOk, batch) :: rest =>
      let o := writerHandleBatch cfg diag st.stats st.ready mOk wOk batch
      writerRun cfg diag
        { stats := o.stats, ready := o.ready,
          metaCalls := st.metaCalls + (if o.metaCalled then 1 else 0),
          handled := st.handled + 1,
          events := st.events ++ o.events } rest

/-- The `done` field of `Service`: a nilable channel.  `nilChan` embeds
`s.done == nil` (initial state, and after `Close` finishes), `pending`
an allocated channel not yet closed, `fired` a closed channel. -/
inductive DoneChan where
  | nilChan
  | pending
  | fired
  deriving Repr, DecidableEq

/-- Embedding of the `Service` struct (service.go lines 46-70) restricted
to the state the claims are about.  `connOpen` embeds `s.conn != nil`
with a bound socket, `workers` that the three goroutines were launched,
`diag` that `s.Diagnostic != nil`, `metaCalls` counts
`MetaClient.CreateDatabase` invocations, `events` logs diagnostic
notifications in order. -/
structure Service where
  config : Config
  diag : Bool
  connOpen : Bool
  workers : Bool
  done : DoneChan
  ready : Bool
  metaCalls : Nat
  stats : Statistics
  events : List DiagEvent
  deriving Repr, DecidableEq

/-- Embedding of `NewService` (lines 73-82) for a given config; the
defaulting of `Config.WithDefaults` happens in config.go, outside the
sources, so the stored config is taken as given.  `diag` says whether a
`Diagnostic` sink is installed (the `With` setter, line 324). -/
def newService (c : Config) (diag : Bool) : Service :=
  { config := c, diag := diag, connOpen := false, workers := false,
    done := DoneChan.nilChan, ready := false, metaCalls := 0,
    stats := zeroStats, events := [] }

/-- Embedding of the private `closed` method (lines 278-286): a select
on `s.done` with a `default` — a closed channel is received from at
once, so `fired` reports closed, `pending` falls to the default and then
`s.done == nil` is false, `nilChan` reports closed. -/
def Service.closed (s : Service) : Bool :=
  match s.done with
  | DoneChan.fired => true
  | DoneChan.pending => false
  | DoneChan.nilChan => true

/-- Embedding of `Open` (lines 85-129).  The oracles stand for the
external calls: `resolveOk` for `net.ResolveUDPAddr`, `listenOk` for
`net.ListenUDP`, `setBufOk` for `conn.SetReadBuffer`.  Mirrors the order
of the source: the already-open check, then `s.done = make(chan
struct\x7b\x7d)`, then the two config validations, then resolve, listen,
optional read-buffer sizing, the `Started` notification, and launching
the three workers. -/
def Service.Open (s : Service) (resolveOk listenOk setBufOk : Bool) :
    Service × Option String :=
  if !s.closed then (s, none)
  else
    let s1 : Service := { s with done := DoneChan.pending }
    if s1.config.BindAddress = "" then
      (s1, some "bind address has to be specified in config")
    else if s1.config.Database = "" then
      (s1, some "database has to be specified in config")
    else if !resolveOk then
      (s1, some "failed to resolve UDP address")
    else if !listenOk then
      (s1, some "failed to set up UDP listener")
    else
      let s2 : Service := { s1 with connOpen := true }
      if (s2.config.ReadBuffer != 0) && !setBufOk then
        (s2, some "failed to set UDP read buffer")
      else
        let s3 : Service :=
          if s2.diag then
            { s2 with events := s2.events ++ [DiagEvent.started s2.config.BindAddress] }
          else s2
        ({ s3 with workers := true }, none)

/-- Embedding of `Close` (lines 244-269): the already-closed check, then
`close(s.done)`, closing the socket when `s.conn != nil`,
`s.batcher.Flush()` and `s.wg.Wait()` (after which the three workers
have exited), then `s.done = nil`, `s.conn = nil` and the `Closed`
notification.  The net state change of the taken branch is recorded. -/
def Service.Close (s : Service) : Service × Option String :=
  if s.closed then (s, none)
  else
    let s1 : Service := { s with done := DoneChan.nilChan, connOpen := false,
                                 workers := false }
    let s2 : Service :=
      if s1.diag then { s1 with events := s1.events ++ [DiagEvent.svcClosed] } else s1
    (s2, none)

/-- Embedding of `Ready` (lines 289-294): the readiness flag under a read
lock. -/
def Service.Ready (s : Service) : Bool := s.ready

/-- The operations that touch a `Service` during its lifetime, with the
oracle outcomes of the external calls each makes: the service surface
(`Open`, `Close`) and one iteration of each worker loop (a successful
read of `n` bytes, a failed read, a parsed datagram, a written batch). -/
inductive Op where
  | openOp (resolveOk listenOk setBufOk : Bool)
  | closeOp
  | recvData (n : Nat)
  | recvErr
  | parseOp (decoded : Option (List Point))
  | writeBatch (metaCreateOk writeOk : Bool) (batch : List Point)

/-- The effect of one operation on the service state, combining the
lifecycle methods with the per-iteration effects of the three loops
(`serve` lines 201-213, `parser` lines 225-238, `writer` lines
164-181). -/
def Service.applyOp (s : Service) : Op → Service
  | Op.openOp a b c => (s.Open a b c).1
  | Op.closeOp => s.Close.1
  | Op.recvData n =>
      { s with stats := { s.stats with BytesReceived := s.stats.BytesReceived + n } }
  | Op.recvErr =>
      { s with stats := { s.stats with ReadFail := s.stats.ReadFail + 1 },
               events := s.events ++ (if s.diag then [DiagEvent.readFromError] else []) }
  | Op.parseOp d =>
      let o := parserHandle s.diag s.stats d
      { s with stats := o.1, events := s.events ++ o.2.2 }
  | Op.writeBatch mOk wOk batch =>
      let o := writerHandleBatch s.config s.diag s.stats s.ready mOk wOk batch
      { s with stats := o.stats, ready := o.ready,
               metaCalls := s.metaCalls + (if o.metaCalled then 1 else 0),
               events := s.events ++ o.events }

/-- A sequence of operations applied in order. -/
def Service.run (s : Service) (ops : List Op) : Service :=
  ops.foldl Service.applyOp s

/-- Where the `serve` loop is within one iteration: at its select
(line 195), or blocked inside `s.conn.ReadFromUDP` (line 201). -/
inductive RecvPhase where
  | atSelect
  | blockedInRead
  deriving Repr, DecidableEq

/-- What the network delivers to a receiver blocked in `ReadFromUDP`:
nothing (the call stays blocked), a datagram, or an error return (in
particular the error produced when `Close` closes the socket under the
blocked read). -/
inductive ReadEnv where
  | idle
  | dataArrives (datagram : List Nat)
  | readErr
  deriving Repr, DecidableEq

/-- State of the `serve` goroutine: its position in the loop, whether
`close(s.done)` has happened, whether the goroutine has returned, the
counters, the notifications emitted, and the datagram copies sent to
`s.parserChan`. -/
structure RecvState where
  phase : RecvPhase
  done : Bool
  exited : Bool
  stats : Statistics
  events : List DiagEvent
  forwarded : List (List Nat)
  deriving Repr, DecidableEq

/-- One step of the `serve` loop (lines 194-215).  The select at line 195
has a `default` clause, so it is deterministic: with `s.done` closed the
done case is taken and the goroutine returns; otherwise the default
branch calls `ReadFromUDP`, which blocks until the environment resolves
it.  A read error increments `ReadFail` and notifies `ReadFromError`
unconditionally (lines 202-208) — the code does not distinguish the
error produced by the socket being closed during `Close` — and then
continues; a successful read of a datagram increments `BytesReceived` by
its length and forwards a fresh copy to `parserChan` (lines 209-213). -/
def recvStep (diag : Bool) (s : RecvState) (env : ReadEnv) : RecvState :=
  if s.exited then s
  else
    match s.phase with
    | RecvPhase.atSelect =>
        if s.done then { s with exited := true }
        else { s with phase := RecvPhase.blockedInRead }
    | RecvPhase.blockedInRead =>
        match env with
        | ReadEnv.idle => s
        | ReadEnv.dataArrives d =>
            { s with phase := RecvPhase.atSelect,
                     stats := { s.stats with
                       BytesReceived := s.stats.BytesReceived + d.length },
                     forwarded := s.forwarded ++ [d] }
        | ReadEnv.readErr =>
            { s with phase := RecvPhase.atSelect,
                     stats := { s.stats with ReadFail := s.stats.ReadFail + 1 },
                     events := s.events ++ (if diag then [DiagEvent.readFromError] else []) }

/-- State of the `parser` goroutine: the contents of `parserChan`,
whether `close(s.done)` has happened, whether the goroutine has
returned, the counters and the notifications emitted. -/
structure PLoopState where
  queue : List (List Nat)
  done : Bool
  exited : Bool
  stats : Statistics
  events : List DiagEvent
  deriving Repr, DecidableEq

/-- One step of the `parser` loop (lines 221-240): a select with no
`default` over `s.done` and `s.parserChan`, so whenever several cases
are ready any of them may be taken.  `takeBuf` pulls the head buffer and
runs the loop body (`parserHandle`, with the decoder outcome as oracle);
`exitDone` returns once `s.done` is closed. -/
inductive ParserLoopStep (diag : Bool) : PLoopState → PLoopState → Prop where
  | takeBuf (s : PLoopState) (b : List Nat) (rest : List (List Nat))
      (decoded : Option (List Point)) (hq : s.queue = b :: rest) (hx : s.exited = false) :
      ParserLoopStep diag s
        { s with queue := rest,
                 stats := (parserHandle diag s.stats decoded).1,
                 events := s.events ++ (parserHandle diag s.stats decoded).2.2 }
  | exitDone (s : PLoopState) (hd : s.done = true) (hx : s.exited = false) :
      ParserLoopStep diag s { s with exited := true }

/-- Joint state of the `writer` goroutine and the batcher during `Close`:
whether `close(s.done)` has happened (line 251), whether
`s.batcher.Flush()` has run (line 257), the points buffered inside the
batcher and not yet emitted, the batches available on `s.batcher.Out()`,
whether the writer has returned, and how many batches it has pulled. -/
structure WriterState where
  done : Bool
  flushCalled : Bool
  pendingPoints : List Point
  batchQueue : List (List Point)
  exited : Bool
  attempted : Nat
  deriving Repr, DecidableEq

/-- Steps of the writer/close interaction.  `fireDone` and the two flush
steps are the actions of `Close` in their source order: `close(s.done)`
at line 251 strictly precedes `s.batcher.Flush()` at line 257.  The
flush steps are modelled from the spec for the external
`tsdb.PointBatcher`: flush forcibly emits any partially filled batch
onto the output queue (nothing when the buffer is empty).  `takeBatch`
and `takeDone` are the two cases of the select of the `writer` loop
(lines 163-185); the select has no `default`, so whenever both a batch
is queued and `s.done` is closed, either step may be taken — taking
`takeDone` returns from the goroutine at once. -/
inductive CloseStep : WriterState → WriterState → Prop where
  | fireDone (s : WriterState) (h : s.done = false) :
      CloseStep s { s with done := true }
  | flushEmpty (s : WriterState) (h1 : s.done = true) (h2 : s.flushCalled = false)
      (h3 : s.pendingPoints = []) :
      CloseStep s { s with flushCalled := true }
  | flushBatch (s : WriterState) (h1 : s.done = true) (h2 : s.flushCalled = false)
      (h3 : s.pendingPoints ≠ []) :
      CloseStep s { s with flushCalled := true, pendingPoints := [],
                           batchQueue := s.batchQueue ++ [s.pendingPoints] }
  | takeBatch (s : WriterState) (b : List Point) (rest : List (List Point))
      (hq : s.batchQueue = b :: rest) (hx : s.exited = false) :
      CloseStep s { s with batchQueue := rest, attempted := s.attempted + 1 }
  | takeDone (s : WriterState) (hd : s.done = true) (hx : s.exited = false) :
      CloseStep s { s with exited := true }

/-- A concrete configuration used by witnesses and counterexamples. -/
def cfg0 : Config :=
  { BindAddress := ":8089", Database := "udp", RetentionPolicy := "", ReadBuffer := 0 }

/-- A concrete configuration with an empty bind address. -/
def cfgNoBind : Config :=
  { BindAddress := "", Database := "udp", RetentionPolicy := "", ReadBuffer := 0 }

/-- A service whose storage initialization has already succeeded. -/
def svcReady : Service := { newService cfg0 true with ready := true }

/-- Once the readiness flag is set, `createInternalStorage` is a no-op:
for any meta-client oracle the sequence ends with the flag still set and
no further invocations. -/
theorem runInitSequence_of_ready (oks : List Bool) (c : Nat) :
    runInitSequence true c oks = (true, c) := by
  induction oks generalizing c with
  | nil => rfl
  | cons ok rest ih => simpa [runInitSequence, createInternalStorage] using ih c

/-- Characterization of the lazy-initialization protocol from an unset
flag: the flag ends set exactly when some call succeeded, and the number
of meta-client invocations is the failures before the first success plus
that success, or one per batch when no call ever succeeds. -/
theorem runInitSequence_of_not_ready (oks : List Bool) (c : Nat) :
    runInitSequence false c oks =
      (oks.any id,
        c + if oks.any id then (oks.takeWhile (fun b => !b)).length + 1
            else oks.length) := by
  induction oks generalizing c with
  | nil => simp [runInitSequence]
  | cons ok rest ih =>
      cases ok with
      | true =>
          simp [runInitSequence, createInternalStorage, runInitSequence_of_ready,
            List.takeWhile]
      | false =>
          rw [show runInitSequence false c (false :: rest)
              = runInitSequence false (c + 1) rest from rfl, ih]
          simp only [List.any_cons, Bool.false_or, List.takeWhile, List.length_cons,
            Bool.not_false, id]
          cases h : rest.any id <;> simp <;> omega

/-- C2: over any sequence of batches processed with the flag initially
unset, the meta-client create-database call is invoked on the first
batch, is never invoked again once it has succeeded (calls = failures
before the first success, plus one), the flag is set exactly by a
successful call, and a failed call leaves the flag unset so the next
batch re-attempts (one invocation per batch until a success). -/
theorem storage_init_at_most_once_after_success (oks : List Bool) :
    runInitSequence false 0 oks =
      (oks.any id,
        if oks.any id then (oks.takeWhile (fun b => !b)).length + 1
        else oks.length)
    ∧ (∀ ok, createInternalStorage true ok =
        { ready := true, errReturned := false, metaCalled := false })
    ∧ createInternalStorage false true =
        { ready := true, errReturned := false, metaCalled := true }
    ∧ createInternalStorage false false =
        { ready := false, errReturned := true, metaCalled := true } := by
  refine ⟨?_, by decide, rfl, rfl⟩
  simpa using runInitSequence_of_not_ready oks 0

/-- C3: for every datagram handed to the parser loop, a successful
decode of the point list `points` forwards exactly `points`, in order,
to the batcher, increments `PointsReceived` by their number and leaves
every other counter (in particular `PointsParseFail`) unchanged, with no
diagnostic notification; a failed decode forwards nothing, increments
`PointsParseFail` by one, leaves every other counter (in particular
`PointsReceived`) unchanged and notifies `ParseError` — never both
outcomes, never partially. -/
theorem parser_forwards_all_or_counts_failure (stats : Statistics) (points : List Point) :
    parserHandle true stats (some points) =
      ({ stats with PointsReceived := stats.PointsReceived + points.length }, points, [])
    ∧ parserHandle true stats none =
      ({ stats with PointsParseFail := stats.PointsParseFail + 1 }, [],
        [DiagEvent.parseError]) :=
  ⟨rfl, rfl⟩

/-- Every batch of a writer run is pulled and handled: the loop never
exits early, whatever the per-batch outcomes. -/
theorem writerRun_handles_all (cfg : Config) (d : Bool)
    (jobs : List (Bool × Bool × List Point)) (st : WriterRunState) :
    (writerRun cfg d st jobs).handled = st.handled + jobs.length := by
  induction jobs generalizing st with
  | nil => simp [writerRun]
  | cons j rest ih =>
      obtain ⟨mOk, wOk, batch⟩ := j
      rw [writerRun, ih]
      simp
      omega

/-- C9: with storage ready, a failed backend write increments
`BatchesTransmitFail` by one, notifies `PointWriterError`, leaves
`BatchesTransmitted` and `PointsTransmitted` (and every other counter)
unchanged; a successful write increments `BatchesTransmitted` by one and
`PointsTransmitted` by the batch length; and over any sequence of
batches every batch is handled exactly once — a failure is terminal for
its batch only and never stops the loop. -/
theorem write_failure_terminal_for_batch_only (cfg : Config) (stats : Statistics)
    (mOk : Bool) (batch : List Point) (st : WriterRunState)
    (jobs : List (Bool × Bool × List Point)) :
    writerHandleBatch cfg true stats true mOk false batch =
      { stats := { stats with BatchesTransmitFail := stats.BatchesTransmitFail + 1 },
        ready := true, metaCalled := false,
        events := [DiagEvent.pointWriterError cfg.Database] }
    ∧ writerHandleBatch cfg true stats true mOk true batch =
      { stats := { stats with
          BatchesTransmitted := stats.BatchesTransmitted + 1,
          PointsTransmitted := stats.PointsTransmitted + batch.length },
        ready := true, metaCalled := false, events := [] }
    ∧ (writerRun cfg true st jobs).handled = st.handled + jobs.length :=
  ⟨rfl, rfl, writerRun_handles_all cfg true jobs st⟩

/-- C4, counterexample: two consecutive storage-initialization failures
leave the embedded `Statistics` — which carries every counter the
service maintains — exactly at its prior value: no storage-init-failure
counter reaches two, because no such counter exists and none of the
seven counters is touched on the initialization-failure path (lines
166-171 only notify the sink and continue). -/
theorem init_failure_increments_no_counter_cex :
    (writerRun cfg0 true
        { stats := zeroStats, ready := false, metaCalls := 0, handled := 0, events := [] }
        [(false, true, [0]), (false, true, [1])]).stats = zeroStats
    ∧ (writerRun cfg0 true
        { stats := zeroStats, ready := false, metaCalls := 0, handled := 0, events := [] }
        [(false, true, [0]), (false, true, [1])]).events =
        [DiagEvent.createInternalStorageFailure "udp",
         DiagEvent.createInternalStorageFailure "udp"] := by
  exact ⟨rfl, rfl⟩

/-- C4, amended: for every batch whose lazy storage initialization
fails, the writer notifies the diagnostic sink, drops the batch without
retry or requeue, and continues to the next batch rather than exiting;
no statistics counter is incremented on this path (the service maintains
no storage-init-failure counter), so two consecutive initialization
failures yield two diagnostic notifications and two dropped batches with
every counter unchanged. -/
theorem init_failure_drops_batch_and_continues (cfg : Config) (stats : Statistics)
    (wOk : Bool) (batch b1 b2 : List Point) :
    writerHandleBatch cfg true stats false false wOk batch =
      { stats := stats, ready := false, metaCalled := true,
        events := [DiagEvent.createInternalStorageFailure cfg.Database] }
    ∧ writerRun cfg true
        { stats := stats, ready := false, metaCalls := 0, handled := 0, events := [] }
        [(false, wOk, b1), (false, wOk, b2)] =
      { stats := stats, ready := false, metaCalls := 2, handled := 2,
        events := [DiagEvent.createInternalStorageFailure cfg.Database,
                   DiagEvent.createInternalStorageFailure cfg.Database] } := by
  exact ⟨rfl, rfl⟩

/-- C1: an execution of `Close` in which the final batch is abandoned.
With one decoded point still buffered in the batcher, `Close` closes
`s.done` (line 251) and then flushes the batcher (line 257), which puts
the batch `[0]` on `s.batcher.Out()`; the select of the writer now has
both cases ready and may take the done case (line 183), returning with
the flushed batch still queued and zero batches attempted.  The writer
therefore does not keep draining the batcher output until it is empty:
termination can make it abandon the just-flushed final batch. -/
theorem writer_abandons_flushed_batch :
    CloseStep
      { done := false, flushCalled := false, pendingPoints := [0], batchQueue := [],
        exited := false, attempted := 0 }
      { done := true, flushCalled := false, pendingPoints := [0], batchQueue := [],
        exited := false, attempted := 0 }
    ∧ CloseStep
      { done := true, flushCalled := false, pendingPoints := [0], batchQueue := [],
        exited := false, attempted := 0 }
      { done := true, flushCalled := true, pendingPoints := [], batchQueue := [[0]],
        exited := false, attempted := 0 }
    ∧ CloseStep
      { done := true, flushCalled := true, pendingPoints := [], batchQueue := [[0]],
        exited := false, attempted := 0 }
      { done := true, flushCalled := true, pendingPoints := [], batchQueue := [[0]],
        exited := true, attempted := 0 }
    ∧ ({ done := true, flushCalled := true, pendingPoints := [], batchQueue := [[0]],
          exited := true, attempted := 0 } : WriterState).attempted = 0
    ∧ ({ done := true, flushCalled := true, pendingPoints := [], batchQueue := [[0]],
          exited := true, attempted := 0 } : WriterState).batchQueue ≠ [] := by
  refine ⟨CloseStep.fireDone _ rfl, ?_, CloseStep.takeDone _ rfl rfl, rfl, by decide⟩
  exact CloseStep.flushBatch _ rfl rfl (by decide)

/-- C7, counterexample: the receiver is not a select-style race.  In the
reachable state where the goroutine is blocked inside `ReadFromUDP` with
the termination signal already fired, an idle socket yields no step at
all: the loop cannot observe termination while blocked, because its
termination check is the non-blocking select at line 195 and the read at
line 201 is an unbounded block outside any select. -/
theorem receiver_blocked_despite_termination_cex :
    recvStep true
      { phase := RecvPhase.blockedInRead, done := true, exited := false,
        stats := zeroStats, events := [], forwarded := [] } ReadEnv.idle =
      { phase := RecvPhase.blockedInRead, done := true, exited := false,
        stats := zeroStats, events := [], forwarded := [] }
    ∧ (fun s => recvStep true s ReadEnv.idle)^[5]
      { phase := RecvPhase.blockedInRead, done := true, exited := false,
        stats := zeroStats, events := [], forwarded := [] } =
      { phase := RecvPhase.blockedInRead, done := true, exited := false,
        stats := zeroStats, events := [], forwarded := [] } := by
  exact ⟨rfl, rfl⟩

/-- C7, amended: the parser and writer loops wait as genuine select
races — once the termination signal has fired their exit step is
enabled even while work is queued, and the work step stays enabled too —
but the receiver does not: it performs a non-blocking termination check
and then blocks unboundedly in the network read, where an idle socket
leaves it stuck even after termination fires; shutdown relies on `Close`
closing the socket so the read returns an error that sends the loop back
to its termination check. -/
theorem select_race_for_parser_and_writer_not_receiver (q : List (List Nat))
    (b0 : List Nat) (b : List Point) (bq : List (List Point)) (st : Statistics)
    (ev : List DiagEvent) (fw : List (List Nat)) (a : Nat) (fc : Bool)
    (pp : List Point) :
    ParserLoopStep true
      { queue := q, done := true, exited := false, stats := st, events := ev }
      { queue := q, done := true, exited := true, stats := st, events := ev }
    ∧ ParserLoopStep true
      { queue := b0 :: q, done := true, exited := false, stats := st, events := ev }
      { queue := q, done := true, exited := false,
        stats := { st with PointsParseFail := st.PointsParseFail + 1 },
        events := ev ++ [DiagEvent.parseError] }
    ∧ CloseStep
      { done := true, flushCalled := fc, pendingPoints := pp, batchQueue := b :: bq,
        exited := false, attempted := a }
      { done := true, flushCalled := fc, pendingPoints := pp, batchQueue := b :: bq,
        exited := true, attempted := a }
    ∧ CloseStep
      { done := true, flushCalled := fc, pendingPoints := pp, batchQueue := b :: bq,
        exited := false, attempted := a }
      { done := true, flushCalled := fc, pendingPoints := pp, batchQueue := bq,
        exited := false, attempted := a + 1 }
    ∧ recvStep true
      { phase := RecvPhase.blockedInRead, done := true, exited := false,
        stats := st, events := ev, forwarded := fw } ReadEnv.idle =
      { phase := RecvPhase.blockedInRead, done := true, exited := false,
        stats := st, events := ev, forwarded := fw }
    ∧ recvStep true
      { phase := RecvPhase.blockedInRead, done := true, exited := false,
        stats := st, events := ev, forwarded := fw } ReadEnv.readErr =
      { phase := RecvPhase.atSelect, done := true, exited := false,
        stats := { st with ReadFail := st.ReadFail + 1 },
        events := ev ++ [DiagEvent.readFromError], forwarded := fw } := by
  refine ⟨ParserLoopStep.exitDone _ rfl rfl,
    ParserLoopStep.takeBuf _ b0 q none rfl rfl,
    CloseStep.takeDone _ rfl rfl,
    CloseStep.takeBatch _ b bq rfl rfl, rfl, rfl⟩

/-- C8, counterexample: the error returned to the blocked read when the
socket is closed during termination is not treated specially.  With the
termination signal fired and the receiver blocked in `ReadFromUDP`, the
error return increments `ReadFail` to one and notifies `ReadFromError`
(lines 202-208), and the step does not exit the loop — contradicting
that the receiver exits without counting or reporting the close-induced
error. -/
theorem close_induced_read_error_is_counted_cex :
    (recvStep true
      { phase := RecvPhase.blockedInRead, done := true, exited := false,
        stats := zeroStats, events := [], forwarded := [] } ReadEnv.readErr).stats.ReadFail
      = 1
    ∧ (recvStep true
      { phase := RecvPhase.blockedInRead, done := true, exited := false,
        stats := zeroStats, events := [], forwarded := [] } ReadEnv.readErr).events
      = [DiagEvent.readFromError]
    ∧ (recvStep true
      { phase := RecvPhase.blockedInRead, done := true, exited := false,
        stats := zeroStats, events := [], forwarded := [] } ReadEnv.readErr).exited
      = false := by
  exact ⟨rfl, rfl, rfl⟩

/-- C8, amended: the receiver handles every read error alike, whether or
not the service is terminating: it increments `ReadFail`, notifies
`ReadFromError`, and continues; when the error was induced by `Close`
closing the socket, the loop then observes the fired termination signal
at its next select and returns.  The close-induced error is thus counted
and reported like a fault, and the exit happens one iteration later. -/
theorem read_error_counted_then_exit (d : Bool) (st : Statistics)
    (ev : List DiagEvent) (fw : List (List Nat)) :
    recvStep true
      { phase := RecvPhase.blockedInRead, done := d, exited := false,
        stats := st, events := ev, forwarded := fw } ReadEnv.readErr =
      { phase := RecvPhase.atSelect, done := d, exited := false,
        stats := { st with ReadFail := st.ReadFail + 1 },
        events := ev ++ [DiagEvent.readFromError], forwarded := fw }
    ∧ recvStep true
      { phase := RecvPhase.atSelect, done := true, exited := false,
        stats := st, events := ev, forwarded := fw } ReadEnv.idle =
      { phase := RecvPhase.atSelect, done := true, exited := true,
        stats := st, events := ev, forwarded := fw } := by
  exact ⟨rfl, rfl⟩

/-- C5, counterexample: `Open` on a fresh service with an empty bind
address returns the configuration error, but the service is then not
indistinguishable from the initial closed state: `s.done` was allocated
at line 92, before the validation at line 94, so the closed-state query
reports not-closed after the failed `Open`, while the fresh service
reported closed. -/
theorem open_failed_then_reports_not_closed_cex :
    ((newService cfgNoBind true).Open true true true).2 =
      some "bind address has to be specified in config"
    ∧ (((newService cfgNoBind true).Open true true true).1).closed = false
    ∧ (newService cfgNoBind true).closed = true
    ∧ ((newService cfgNoBind true).Open true true true).1 ≠ newService cfgNoBind true := by
  refine ⟨rfl, rfl, rfl, by decide⟩

/-- C5, amended: for every closed service whose configuration has an
empty bind address or an empty database identifier, `Open` returns an
error synchronously, binds no listener, starts no worker tasks, and
changes nothing except allocating the termination-signal field — which
it allocates before validating, so after the failed `Open` the
closed-state query reports not-closed rather than closed. -/
theorem open_config_error_allocates_only_done (s : Service) (a b c : Bool)
    (hc : s.closed = true)
    (hbad : s.config.BindAddress = "" ∨ s.config.Database = "") :
    ((s.Open a b c).2).isSome = true
    ∧ (s.Open a b c).1 = { s with done := DoneChan.pending }
    ∧ ((s.Open a b c).1).closed = false := by
  obtain ⟨cfg, dg, co, wk, dn, rd, mc, st, ev⟩ := s
  by_cases hb : cfg.BindAddress = ""
  · cases dn with
    | pending => simp [Service.closed] at hc
    | nilChan => simp [Service.Open, Service.closed, hb]
    | fired => simp [Service.Open, Service.closed, hb]
  · have hd : cfg.Database = "" := hbad.resolve_left hb
    cases dn with
    | pending => simp [Service.closed] at hc
    | nilChan => simp [Service.Open, Service.closed, hb, hd]
    | fired => simp [Service.Open, Service.closed, hb, hd]

/-- Witness for the amended C5 at a concrete input: the fresh service
with the empty bind address. -/
theorem open_config_error_allocates_only_done_witness :
    (((newService cfgNoBind true).Open true true true).2).isSome = true
    ∧ ((newService cfgNoBind true).Open true true true).1 =
        { newService cfgNoBind true with done := DoneChan.pending }
    ∧ ((((newService cfgNoBind true).Open true true true).1)).closed = false :=
  open_config_error_allocates_only_done (newService cfgNoBind true) true true true rfl
    (Or.inl rfl)

/-- C6: `Open` on a service that is not closed (already open) returns
nil and changes nothing — no re-binding, no new workers; `Close` on a
closed service (including the initial, never-opened state: the fresh
service reports closed) returns nil with no side effects. -/
theorem open_close_idempotent (s : Service) (a b c : Bool) (cfg : Config) (d : Bool) :
    (s.closed = false → s.Open a b c = (s, none))
    ∧ (s.closed = true → s.Close = (s, none))
    ∧ (newService cfg d).closed = true := by
  refine ⟨fun h => ?_, fun h => ?_, rfl⟩
  · simp [Service.Open, h]
  · simp [Service.Close, h]

/-- One operation preserves a set readiness flag and, once the flag is
set, makes no meta-client invocation: no lifecycle method or worker
iteration ever writes `false` to the flag, and `createInternalStorage`
takes its fast path. -/
theorem applyOp_preserves_ready (s : Service) (op : Op) (h : s.ready = true) :
    (s.applyOp op).ready = true ∧ (s.applyOp op).metaCalls = s.metaCalls := by
  obtain ⟨cfg, dg, co, wk, dn, rd, mc, st, ev⟩ := s
  cases h
  cases op with
  | openOp a b c =>
      simp only [Service.applyOp, Service.Open]
      split_ifs <;> simp
  | closeOp =>
      simp only [Service.applyOp, Service.Close]
      split_ifs <;> simp
  | recvData n => exact ⟨rfl, rfl⟩
  | recvErr => exact ⟨rfl, rfl⟩
  | parseOp d => cases d <;> exact ⟨rfl, rfl⟩
  | writeBatch mOk wOk batch =>
      cases wOk <;>
        simp [Service.applyOp, writerHandleBatch, createInternalStorage]

/-- C10: the readiness flag is monotone across the whole lifetime of the
service: once set, any sequence of operations — `Close` (which resets
the connection and termination-signal fields), re-`Open`, and every
worker iteration — leaves `Ready` reporting true and never invokes the
meta-client create-database call again (the invocation count is
unchanged). -/
theorem ready_monotone_forever (s : Service) (ops : List Op) (h : s.ready = true) :
    (s.run ops).Ready = true ∧ (s.run ops).metaCalls = s.metaCalls := by
  induction ops generalizing s with
  | nil => exact ⟨h, rfl⟩
  | cons op rest ih =>
      have h1 := applyOp_preserves_ready s op h
      have h2 := ih (s.applyOp op) h1.1
      exact ⟨h2.1, h2.2.trans h1.2⟩

/-- Witness for C10 at a concrete input: a ready service is closed,
re-opened and handed a batch whose meta-client call would fail; `Ready`
still reports true and the meta client was never invoked. -/
theorem ready_monotone_forever_witness :
    (svcReady.run
        [Op.closeOp, Op.openOp true true true, Op.writeBatch false true [0]]).Ready = true
    ∧ (svcReady.run
        [Op.closeOp, Op.openOp true true true, Op.writeBatch false true [0]]).metaCalls
      = svcReady.metaCalls :=
  ready_monotone_forever svcReady
    [Op.closeOp, Op.openOp true true true, Op.writeBatch false true [0]] rfl

end Udp
